import Mathlib

/-!
Verification of the audit netlink control handle (src/handle.rs).

The handle builds one netlink request per control intent, dispatches it over
a correlated transport, and classifies the reply stream.  We embed the
message model shallowly: the reply stream is a finite list of datagrams, and
the transport is an oracle mapping each dispatched request either to a reply
list (successful dispatch) or to a dispatch failure.  Each handle operation
is a small sending program, so that both its result and the exact list of
requests it dispatches are provable functions of the oracle.
-/

namespace Audit

/- Mask values, from src/handle.rs. -/

def AUDIT_STATUS_ENABLED : Nat := 1

def AUDIT_STATUS_FAILURE : Nat := 2

def AUDIT_STATUS_PID : Nat := 4

def AUDIT_STATUS_RATE_LIMIT : Nat := 8

def AUDIT_STATUS_BACKLOG_LIMIT : Nat := 16

def AUDIT_STATUS_BACKLOG_WAIT_TIME : Nat := 32

def AUDIT_STATUS_LOST : Nat := 64

/- Netlink header flag bits, fixed kernel ABI values imported by handle.rs
from netlink_packet_core. -/

def NLM_F_REQUEST : Nat := 1

def NLM_F_ACK : Nat := 4

def NLM_F_ROOT : Nat := 256

def NLM_F_MATCH : Nat := 512

def NLM_F_DUMP : Nat := NLM_F_ROOT ||| NLM_F_MATCH

def NLM_F_EXCL : Nat := 512

def NLM_F_CREATE : Nat := 1024

def NLM_F_NONREC : Nat := 256

/-- A rule message.  The handle treats rules as opaque payloads (their wire
layout lives in the packet crate), so the embedding carries them as an
abstract value. -/
structure RuleMessage where
  raw : Nat
deriving DecidableEq, Repr

/-- Modelled from the spec: the status snapshot record of section 6
(`mask, enabled, failure, pid, rate_limit, backlog_limit, lost,
backlog_wait_time, feature_bitmap`, each a 32-bit field); the concrete
StatusMessage type lives in the packet crate, outside src/. -/
structure StatusMessage where
  mask : Nat
  enabled : Nat
  failure : Nat
  pid : Nat
  rate_limit : Nat
  backlog_limit : Nat
  lost : Nat
  backlog_wait_time : Nat
  feature_bitmap : Nat
deriving DecidableEq, Repr

/-- Modelled from the spec: StatusMessage::new() produces the default
snapshot, every field zero (a sparse update starts from an empty mask). -/
def StatusMessage.new : StatusMessage := ⟨0, 0, 0, 0, 0, 0, 0, 0, 0⟩

/-- The audit control message envelope: the tagged union of request and
response kinds the handle exchanges (crate::packet::AuditMessage). -/
inductive AuditMessage where
  | GetStatus (status : Option StatusMessage)
  | SetStatus (status : StatusMessage)
  | AddRule (rule : RuleMessage)
  | DelRule (rule : RuleMessage)
  | ListRules (rule : Option RuleMessage)
  | Event (kind : Nat) (data : List Nat)
deriving DecidableEq, Repr

/-- The netlink error payload: a kernel error record, carried verbatim. -/
structure ErrorMessage where
  code : Int
deriving DecidableEq, Repr

/-- The netlink payload alternatives of netlink_packet_core. -/
inductive NetlinkPayload where
  | Done
  | Error (err : ErrorMessage)
  | Noop
  | Overrun (bytes : List Nat)
  | InnerMessage (msg : AuditMessage)
deriving DecidableEq, Repr

/-- The netlink message header (length, type, flags, sequence, port). -/
structure NetlinkHeader where
  length : Nat
  message_type : Nat
  flags : Nat
  sequence_number : Nat
  port_number : Nat
deriving DecidableEq, Repr

/-- The default (all-zero) header NetlinkMessage::from starts with. -/
def NetlinkHeader.default : NetlinkHeader := ⟨0, 0, 0, 0, 0⟩

/-- A netlink message: header plus payload. -/
structure NetlinkMessage where
  header : NetlinkHeader
  payload : NetlinkPayload
deriving DecidableEq, Repr

/-- NetlinkMessage::from(audit_payload): wraps an audit message with the
default header. -/
def NetlinkMessage.fromAudit (m : AuditMessage) : NetlinkMessage :=
  ⟨NetlinkHeader.default, NetlinkPayload.InnerMessage m⟩

/-- NetlinkMessage::new(header, payload). -/
def NetlinkMessage.new (header : NetlinkHeader) (payload : NetlinkPayload) :
    NetlinkMessage :=
  ⟨header, payload⟩

/-- Modelled from the spec: the error taxonomy of section 7 (the Error enum
lives in the crate root, outside src/); handle.rs constructs RequestFailed,
NetlinkError and UnexpectedMessage. -/
inductive Error where
  | RequestFailed
  | NetlinkError (err : ErrorMessage)
  | UnexpectedMessage (msg : NetlinkMessage)
  | Malformed
deriving DecidableEq, Repr

/-- A handle computation: either a result, or the dispatch of one request
followed by a continuation on the transport's outcome (`none` when the
connection could not dispatch, `some replies` with the correlated reply
datagrams otherwise). -/
inductive HandleProg (α : Type) where
  | pure (a : α)
  | send (msg : NetlinkMessage)
      (k : Option (List NetlinkMessage) → HandleProg α)

/-- A mock transport: per dispatched request, a dispatch failure or the
finite stream of correlated reply datagrams. -/
abbrev Oracle := NetlinkMessage → Option (List NetlinkMessage)

variable {α β : Type}

/-- Run a handle computation against a transport. -/
def HandleProg.run (ω : Oracle) : HandleProg α → α
  | .pure a => a
  | .send m k => (k (ω m)).run ω

/-- The requests a handle computation dispatches, in order. -/
def HandleProg.sends (ω : Oracle) : HandleProg α → List NetlinkMessage
  | .pure _ => []
  | .send m k => m :: (k (ω m)).sends ω

/-- Sequencing of handle computations. -/
def HandleProg.bind : HandleProg α → (α → HandleProg β) → HandleProg β
  | .pure a, f => f a
  | .send m k, f => .send m fun o => (k o).bind f

namespace Handle

/-- Handle::request: dispatch a message; a transport-level failure maps to
Error::RequestFailed, otherwise the reply stream is returned. -/
def request (message : NetlinkMessage) :
    HandleProg (Except Error (List NetlinkMessage)) :=
  .send message fun outcome =>
    .pure (match outcome with
      | none => Except.error Error.RequestFailed
      | some replies => Except.ok replies)

/-- Handle::acked_request: dispatch, then classify the reply stream.  An
empty stream is the acknowledgement (Ok); a first datagram with an error
payload becomes NetlinkError with that payload; any other first datagram
becomes UnexpectedMessage rebuilt from its parts. -/
def acked_request (message : NetlinkMessage) :
    HandleProg (Except Error Unit) :=
  (request message).bind fun res =>
    .pure (match res with
      | Except.error e => Except.error e
      | Except.ok response =>
        match response with
        | [] => Except.ok ()
        | first :: _ =>
          match first.payload with
          | NetlinkPayload.Error err_msg =>
              Except.error (Error.NetlinkError err_msg)
          | payload =>
              Except.error (Error.UnexpectedMessage
                (NetlinkMessage.new first.header payload)))

/-- The request built by Handle::add_rule: AddRule payload, flags
REQUEST, ACK, EXCL, CREATE. -/
def add_rule_request (rule : RuleMessage) : NetlinkMessage :=
  let req := NetlinkMessage.fromAudit (AuditMessage.AddRule rule)
  { req with header :=
      { req.header with flags :=
          NLM_F_REQUEST ||| NLM_F_ACK ||| NLM_F_EXCL ||| NLM_F_CREATE } }

/-- Handle::add_rule. -/
def add_rule (rule : RuleMessage) : HandleProg (Except Error Unit) :=
  acked_request (add_rule_request rule)

/-- The request built by Handle::del_rule: DelRule payload, flags
REQUEST, ACK, NONREC. -/
def del_rule_request (rule : RuleMessage) : NetlinkMessage :=
  let req := NetlinkMessage.fromAudit (AuditMessage.DelRule rule)
  { req with header :=
      { req.header with flags :=
          NLM_F_REQUEST ||| NLM_F_ACK ||| NLM_F_NONREC } }

/-- Handle::del_rule. -/
def del_rule (rule : RuleMessage) : HandleProg (Except Error Unit) :=
  acked_request (del_rule_request rule)

/-- The request built by Handle::list_rules: ListRules(None), flags
REQUEST, DUMP. -/
def list_rules_request : NetlinkMessage :=
  let req := NetlinkMessage.fromAudit (AuditMessage.ListRules none)
  { req with header :=
      { req.header with flags := NLM_F_REQUEST ||| NLM_F_DUMP } }

/-- Handle::list_rules: on successful dispatch, each reply datagram is
mapped independently to one stream item; on dispatch failure the stream is
the single error item. -/
def list_rules : HandleProg (List (Except Error RuleMessage)) :=
  (request list_rules_request).bind fun res =>
    .pure (match res with
      | Except.ok response =>
        response.map fun msg =>
          match msg.payload with
          | NetlinkPayload.InnerMessage
              (AuditMessage.ListRules (some rule_msg)) =>
              Except.ok rule_msg
          | NetlinkPayload.Error err_msg =>
              Except.error (Error.NetlinkError err_msg)
          | payload =>
              Except.error (Error.UnexpectedMessage
                (NetlinkMessage.new msg.header payload))
      | Except.error e => [Except.error e])

/-- The status built by Handle::enable_events: enabled = 1, pid = the
current process id, mask = ENABLED and PID. -/
def enable_events_status (processId : Nat) : StatusMessage :=
  { StatusMessage.new with
      enabled := 1
      pid := processId
      mask := AUDIT_STATUS_ENABLED ||| AUDIT_STATUS_PID }

/-- The request built by Handle::enable_events: SetStatus payload, flags
REQUEST, ACK.  The process id comes from the environment and is a
parameter of the embedding. -/
def enable_events_request (processId : Nat) : NetlinkMessage :=
  let req := NetlinkMessage.fromAudit
    (AuditMessage.SetStatus (enable_events_status processId))
  { req with header :=
      { req.header with flags := NLM_F_REQUEST ||| NLM_F_ACK } }

/-- Handle::enable_events. -/
def enable_events (processId : Nat) : HandleProg (Except Error Unit) :=
  acked_request (enable_events_request processId)

/-- The status built by Handle::set_enabled. -/
def set_enabled_status (value : Bool) : StatusMessage :=
  { StatusMessage.new with
      enabled := if value then 1 else 0
      mask := AUDIT_STATUS_ENABLED }

/-- The request built by Handle::set_enabled: SetStatus payload, flags
REQUEST, ACK. -/
def set_enabled_request (value : Bool) : NetlinkMessage :=
  let req := NetlinkMessage.fromAudit
    (AuditMessage.SetStatus (set_enabled_status value))
  { req with header :=
      { req.header with flags := NLM_F_REQUEST ||| NLM_F_ACK } }

/-- Handle::set_enabled. -/
def set_enabled (value : Bool) : HandleProg (Except Error Unit) :=
  acked_request (set_enabled_request value)

/-- The status built by Handle::set_pid. -/
def set_pid_status (pid : Nat) : StatusMessage :=
  { StatusMessage.new with
      pid := pid
      mask := AUDIT_STATUS_PID }

/-- The request built by Handle::set_pid: SetStatus payload, flags
REQUEST, ACK. -/
def set_pid_request (pid : Nat) : NetlinkMessage :=
  let req := NetlinkMessage.fromAudit
    (AuditMessage.SetStatus (set_pid_status pid))
  { req with header :=
      { req.header with flags := NLM_F_REQUEST ||| NLM_F_ACK } }

/-- Handle::set_pid. -/
def set_pid (pid : Nat) : HandleProg (Except Error Unit) :=
  acked_request (set_pid_request pid)

/-- The request built by Handle::get_status: GetStatus(None), flags
REQUEST, DUMP. -/
def get_status_request : NetlinkMessage :=
  let req := NetlinkMessage.fromAudit (AuditMessage.GetStatus none)
  { req with header :=
      { req.header with flags := NLM_F_REQUEST ||| NLM_F_DUMP } }

/-- Handle::get_status: only the first reply datagram is considered; no
datagram at all is RequestFailed; a populated GetStatus payload is the
status; anything else is UnexpectedMessage rebuilt from its parts. -/
def get_status : HandleProg (Except Error StatusMessage) :=
  (request get_status_request).bind fun res =>
    .pure (match res with
      | Except.error e => Except.error e
      | Except.ok response =>
        match response with
        | [] => Except.error Error.RequestFailed
        | first :: _ =>
          match first.payload with
          | NetlinkPayload.InnerMessage
              (AuditMessage.GetStatus (some status)) => Except.ok status
          | payload =>
              Except.error (Error.UnexpectedMessage
                (NetlinkMessage.new first.header payload)))

/-- The request built by Handle::set_status: SetStatus payload, flags
REQUEST, ACK. -/
def set_status_request (status : StatusMessage) : NetlinkMessage :=
  let req := NetlinkMessage.fromAudit (AuditMessage.SetStatus status)
  { req with header :=
      { req.header with flags := NLM_F_REQUEST ||| NLM_F_ACK } }

/-- Handle::set_status. -/
def set_status (status : StatusMessage) : HandleProg (Except Error Unit) :=
  acked_request (set_status_request status)

end Handle

/-! Helper lemmas shared by the claim theorems. -/

/-- Evaluation of an acknowledged request against a transport. -/
theorem acked_request_run (ω : Oracle) (msg : NetlinkMessage) :
    (Handle.acked_request msg).run ω =
      match ω msg with
      | none => Except.error Error.RequestFailed
      | some [] => Except.ok ()
      | some (first :: _) =>
        match first.payload with
        | NetlinkPayload.Error e => Except.error (Error.NetlinkError e)
        | p => Except.error (Error.UnexpectedMessage
            (NetlinkMessage.new first.header p)) := by
  cases h : ω msg with
  | none =>
    simp [Handle.acked_request, Handle.request, HandleProg.bind,
      HandleProg.run, h]
  | some replies =>
    cases replies with
    | nil =>
      simp [Handle.acked_request, Handle.request, HandleProg.bind,
        HandleProg.run, h]
    | cons first rest =>
      simp [Handle.acked_request, Handle.request, HandleProg.bind,
        HandleProg.run, h]

/-- An acknowledged request dispatches exactly its one message. -/
theorem acked_request_sends (ω : Oracle) (msg : NetlinkMessage) :
    (Handle.acked_request msg).sends ω = [msg] := by
  simp [Handle.acked_request, Handle.request, HandleProg.bind,
    HandleProg.sends]

/-- Evaluation of list_rules against a transport. -/
theorem list_rules_run (ω : Oracle) :
    Handle.list_rules.run ω =
      match ω Handle.list_rules_request with
      | none => [Except.error Error.RequestFailed]
      | some response =>
        response.map fun msg =>
          match msg.payload with
          | NetlinkPayload.InnerMessage
              (AuditMessage.ListRules (some rule_msg)) => Except.ok rule_msg
          | NetlinkPayload.Error err_msg =>
              Except.error (Error.NetlinkError err_msg)
          | p => Except.error (Error.UnexpectedMessage
              (NetlinkMessage.new msg.header p)) := by
  cases h : ω Handle.list_rules_request with
  | none =>
    simp [Handle.list_rules, Handle.request, HandleProg.bind,
      HandleProg.run, h]
  | some response =>
    simp [Handle.list_rules, Handle.request, HandleProg.bind,
      HandleProg.run, h]

/-- Evaluation of get_status against a transport. -/
theorem get_status_run (ω : Oracle) :
    Handle.get_status.run ω =
      match ω Handle.get_status_request with
      | none => Except.error Error.RequestFailed
      | some [] => Except.error Error.RequestFailed
      | some (first :: _) =>
        match first.payload with
        | NetlinkPayload.InnerMessage
            (AuditMessage.GetStatus (some status)) => Except.ok status
        | p => Except.error (Error.UnexpectedMessage
            (NetlinkMessage.new first.header p)) := by
  cases h : ω Handle.get_status_request with
  | none =>
    simp [Handle.get_status, Handle.request, HandleProg.bind,
      HandleProg.run, h]
  | some replies =>
    cases replies with
    | nil =>
      simp [Handle.get_status, Handle.request, HandleProg.bind,
        HandleProg.run, h]
    | cons first rest =>
      simp [Handle.get_status, Handle.request, HandleProg.bind,
        HandleProg.run, h]

/-! Claim theorems. -/

/-- Claim C1: for every acknowledged operation (add_rule, del_rule,
set_status, set_enabled, set_pid, enable_events), if the request is
dispatched successfully and the correlated reply stream completes with zero
datagrams, the operation returns Ok(()). -/
theorem acked_ops_empty_reply_ok (ω : Oracle) (rule₁ rule₂ : RuleMessage)
    (st : StatusMessage) (b : Bool) (p q : Nat)
    (h₁ : ω (Handle.add_rule_request rule₁) = some [])
    (h₂ : ω (Handle.del_rule_request rule₂) = some [])
    (h₃ : ω (Handle.set_status_request st) = some [])
    (h₄ : ω (Handle.set_enabled_request b) = some [])
    (h₅ : ω (Handle.set_pid_request p) = some [])
    (h₆ : ω (Handle.enable_events_request q) = some []) :
    (Handle.add_rule rule₁).run ω = Except.ok () ∧
    (Handle.del_rule rule₂).run ω = Except.ok () ∧
    (Handle.set_status st).run ω = Except.ok () ∧
    (Handle.set_enabled b).run ω = Except.ok () ∧
    (Handle.set_pid p).run ω = Except.ok () ∧
    (Handle.enable_events q).run ω = Except.ok () := by
  refine ⟨?_, ?_, ?_, ?_, ?_, ?_⟩ <;>
    first
      | rw [Handle.add_rule, acked_request_run, h₁]
      | rw [Handle.del_rule, acked_request_run, h₂]
      | rw [Handle.set_status, acked_request_run, h₃]
      | rw [Handle.set_enabled, acked_request_run, h₄]
      | rw [Handle.set_pid, acked_request_run, h₅]
      | rw [Handle.enable_events, acked_request_run, h₆]

/-- Witness for C1 at a transport whose reply streams are all empty. -/
theorem acked_ops_empty_reply_ok_witness :
    (fun _ : NetlinkMessage => (some [] : Option (List NetlinkMessage)))
        (Handle.add_rule_request ⟨0⟩) = some [] ∧
    ((Handle.add_rule ⟨0⟩).run (fun _ => some []) = Except.ok () ∧
      (Handle.del_rule ⟨1⟩).run (fun _ => some []) = Except.ok () ∧
      (Handle.set_status StatusMessage.new).run (fun _ => some []) =
        Except.ok () ∧
      (Handle.set_enabled true).run (fun _ => some []) = Except.ok () ∧
      (Handle.set_pid 5).run (fun _ => some []) = Except.ok () ∧
      (Handle.enable_events 7).run (fun _ => some []) = Except.ok ()) :=
  ⟨rfl, acked_ops_empty_reply_ok (fun _ => some []) ⟨0⟩ ⟨1⟩
    StatusMessage.new true 5 7 rfl rfl rfl rfl rfl rfl⟩

/-- Claim C2: for every acknowledged operation, if the reply stream yields
at least one datagram, the operation never returns Ok: a first datagram
whose payload is a netlink error resolves to Err(NetlinkError) carrying
that exact payload verbatim, and any other payload resolves to
Err(UnexpectedMessage) carrying the raw message. -/
theorem acked_ops_nonempty_reply_err (ω : Oracle)
    (rule₁ rule₂ : RuleMessage) (st : StatusMessage) (b : Bool) (p q : Nat)
    (m : NetlinkMessage) (rest : List NetlinkMessage)
    (h₁ : ω (Handle.add_rule_request rule₁) = some (m :: rest))
    (h₂ : ω (Handle.del_rule_request rule₂) = some (m :: rest))
    (h₃ : ω (Handle.set_status_request st) = some (m :: rest))
    (h₄ : ω (Handle.set_enabled_request b) = some (m :: rest))
    (h₅ : ω (Handle.set_pid_request p) = some (m :: rest))
    (h₆ : ω (Handle.enable_events_request q) = some (m :: rest)) :
    ((Handle.add_rule rule₁).run ω = Except.error (match m.payload with
      | NetlinkPayload.Error e => Error.NetlinkError e
      | pl => Error.UnexpectedMessage (NetlinkMessage.new m.header pl)) ∧
     (Handle.del_rule rule₂).run ω = Except.error (match m.payload with
      | NetlinkPayload.Error e => Error.NetlinkError e
      | pl => Error.UnexpectedMessage (NetlinkMessage.new m.header pl)) ∧
     (Handle.set_status st).run ω = Except.error (match m.payload with
      | NetlinkPayload.Error e => Error.NetlinkError e
      | pl => Error.UnexpectedMessage (NetlinkMessage.new m.header pl)) ∧
     (Handle.set_enabled b).run ω = Except.error (match m.payload with
      | NetlinkPayload.Error e => Error.NetlinkError e
      | pl => Error.UnexpectedMessage (NetlinkMessage.new m.header pl)) ∧
     (Handle.set_pid p).run ω = Except.error (match m.payload with
      | NetlinkPayload.Error e => Error.NetlinkError e
      | pl => Error.UnexpectedMessage (NetlinkMessage.new m.header pl)) ∧
     (Handle.enable_events q).run ω = Except.error (match m.payload with
      | NetlinkPayload.Error e => Error.NetlinkError e
      | pl => Error.UnexpectedMessage (NetlinkMessage.new m.header pl))) ∧
    ((Handle.add_rule rule₁).run ω ≠ Except.ok () ∧
     (Handle.del_rule rule₂).run ω ≠ Except.ok () ∧
     (Handle.set_status st).run ω ≠ Except.ok () ∧
     (Handle.set_enabled b).run ω ≠ Except.ok () ∧
     (Handle.set_pid p).run ω ≠ Except.ok () ∧
     (Handle.enable_events q).run ω ≠ Except.ok ()) := by
  have base : ∀ req : NetlinkMessage, ω req = some (m :: rest) →
      (Handle.acked_request req).run ω =
        Except.error (match m.payload with
          | NetlinkPayload.Error e => Error.NetlinkError e
          | pl =>
            Error.UnexpectedMessage (NetlinkMessage.new m.header pl)) := by
    intro req hreq
    rw [acked_request_run, hreq]
    cases hp : m.payload <;> simp [hp]
  refine ⟨⟨base _ h₁, base _ h₂, base _ h₃, base _ h₄, base _ h₅, base _ h₆⟩,
    ?_, ?_, ?_, ?_, ?_, ?_⟩ <;>
    first
      | (rw [Handle.add_rule, base _ h₁]; simp)
      | (rw [Handle.del_rule, base _ h₂]; simp)
      | (rw [Handle.set_status, base _ h₃]; simp)
      | (rw [Handle.set_enabled, base _ h₄]; simp)
      | (rw [Handle.set_pid, base _ h₅]; simp)
      | (rw [Handle.enable_events, base _ h₆]; simp)

/-- Witness for C2 at a transport that replies with one error datagram. -/
theorem acked_ops_nonempty_reply_err_witness :
    (fun _ : NetlinkMessage => (some [NetlinkMessage.new
        NetlinkHeader.default (NetlinkPayload.Error ⟨3⟩)] :
        Option (List NetlinkMessage)))
      (Handle.add_rule_request ⟨0⟩) =
      some [NetlinkMessage.new NetlinkHeader.default
        (NetlinkPayload.Error ⟨3⟩)] ∧
    (Handle.add_rule ⟨0⟩).run (fun _ => some [NetlinkMessage.new
        NetlinkHeader.default (NetlinkPayload.Error ⟨3⟩)]) =
      Except.error (Error.NetlinkError ⟨3⟩) :=
  ⟨rfl, (acked_ops_nonempty_reply_err
    (fun _ => some [NetlinkMessage.new NetlinkHeader.default
      (NetlinkPayload.Error ⟨3⟩)])
    ⟨0⟩ ⟨1⟩ StatusMessage.new true 5 7
    (NetlinkMessage.new NetlinkHeader.default (NetlinkPayload.Error ⟨3⟩)) []
    rfl rfl rfl rfl rfl rfl).1.1⟩


/-- Claim C5: every request built by the Handle carries exactly the header
flags the intent table prescribes: add_rule REQUEST, ACK, EXCL, CREATE;
del_rule REQUEST, ACK, NONREC; list_rules and get_status REQUEST, DUMP;
set_status, set_enabled, set_pid and enable_events REQUEST, ACK. -/
theorem handle_request_flags :
    (∀ rule : RuleMessage, (Handle.add_rule_request rule).header.flags =
      (NLM_F_REQUEST ||| NLM_F_ACK ||| NLM_F_EXCL ||| NLM_F_CREATE)) ∧
    (∀ rule : RuleMessage, (Handle.del_rule_request rule).header.flags =
      (NLM_F_REQUEST ||| NLM_F_ACK ||| NLM_F_NONREC)) ∧
    Handle.list_rules_request.header.flags =
      (NLM_F_REQUEST ||| NLM_F_DUMP) ∧
    Handle.get_status_request.header.flags =
      (NLM_F_REQUEST ||| NLM_F_DUMP) ∧
    (∀ st : StatusMessage, (Handle.set_status_request st).header.flags =
      (NLM_F_REQUEST ||| NLM_F_ACK)) ∧
    (∀ b : Bool, (Handle.set_enabled_request b).header.flags =
      (NLM_F_REQUEST ||| NLM_F_ACK)) ∧
    (∀ p : Nat, (Handle.set_pid_request p).header.flags =
      (NLM_F_REQUEST ||| NLM_F_ACK)) ∧
    (∀ q : Nat, (Handle.enable_events_request q).header.flags =
      (NLM_F_REQUEST ||| NLM_F_ACK)) :=
  ⟨fun _ => rfl, fun _ => rfl, rfl, rfl, fun _ => rfl, fun _ => rfl,
    fun _ => rfl, fun _ => rfl⟩

/-- Claim C7: set_pid(p) sends a SetStatus message whose status has mask
exactly the PID bit and pid p; set_enabled(b) sends a status with mask
exactly the ENABLED bit and enabled 1 when b is true, else 0; every other
status field keeps its default value. -/
theorem set_pid_set_enabled_status_fields (ω : Oracle) (p : Nat) (b : Bool) :
    ((Handle.set_pid p).sends ω = [Handle.set_pid_request p] ∧
     (Handle.set_pid_request p).payload = NetlinkPayload.InnerMessage
       (AuditMessage.SetStatus (Handle.set_pid_status p)) ∧
     (Handle.set_pid_status p).mask = AUDIT_STATUS_PID ∧
     (Handle.set_pid_status p).pid = p ∧
     (Handle.set_pid_status p).enabled = StatusMessage.new.enabled ∧
     (Handle.set_pid_status p).failure = StatusMessage.new.failure ∧
     (Handle.set_pid_status p).rate_limit = StatusMessage.new.rate_limit ∧
     (Handle.set_pid_status p).backlog_limit =
       StatusMessage.new.backlog_limit ∧
     (Handle.set_pid_status p).lost = StatusMessage.new.lost ∧
     (Handle.set_pid_status p).backlog_wait_time =
       StatusMessage.new.backlog_wait_time ∧
     (Handle.set_pid_status p).feature_bitmap =
       StatusMessage.new.feature_bitmap) ∧
    ((Handle.set_enabled b).sends ω = [Handle.set_enabled_request b] ∧
     (Handle.set_enabled_request b).payload = NetlinkPayload.InnerMessage
       (AuditMessage.SetStatus (Handle.set_enabled_status b)) ∧
     (Handle.set_enabled_status b).mask = AUDIT_STATUS_ENABLED ∧
     (Handle.set_enabled_status b).enabled = (if b then 1 else 0) ∧
     (Handle.set_enabled_status b).pid = StatusMessage.new.pid ∧
     (Handle.set_enabled_status b).failure = StatusMessage.new.failure ∧
     (Handle.set_enabled_status b).rate_limit = StatusMessage.new.rate_limit ∧
     (Handle.set_enabled_status b).backlog_limit =
       StatusMessage.new.backlog_limit ∧
     (Handle.set_enabled_status b).lost = StatusMessage.new.lost ∧
     (Handle.set_enabled_status b).backlog_wait_time =
       StatusMessage.new.backlog_wait_time ∧
     (Handle.set_enabled_status b).feature_bitmap =
       StatusMessage.new.feature_bitmap) :=
  ⟨⟨acked_request_sends ω (Handle.set_pid_request p), rfl, rfl, rfl, rfl,
    rfl, rfl, rfl, rfl, rfl, rfl⟩,
   ⟨acked_request_sends ω (Handle.set_enabled_request b), rfl, rfl, rfl,
    rfl, rfl, rfl, rfl, rfl, rfl, rfl⟩⟩

/-- Claim C8: enable_events sends exactly one SetStatus message whose
status has exactly the ENABLED and PID mask bits, enabled 1, and pid equal
to the current process id; it never issues two separate status requests. -/
theorem enable_events_single_atomic (ω : Oracle) (processId : Nat) :
    (Handle.enable_events processId).sends ω =
      [Handle.enable_events_request processId] ∧
    ((Handle.enable_events processId).sends ω).length = 1 ∧
    (Handle.enable_events_request processId).payload =
      NetlinkPayload.InnerMessage (AuditMessage.SetStatus
        (Handle.enable_events_status processId)) ∧
    (Handle.enable_events_status processId).mask =
      (AUDIT_STATUS_ENABLED ||| AUDIT_STATUS_PID) ∧
    (Handle.enable_events_status processId).enabled = 1 ∧
    (Handle.enable_events_status processId).pid = processId := by
  refine ⟨acked_request_sends ω _, ?_, rfl, rfl, rfl, rfl⟩
  rw [show (Handle.enable_events processId).sends ω =
    [Handle.enable_events_request processId] from acked_request_sends ω _]
  rfl

/-- Claim C10: the result of an acknowledged request is a function of at
most the first datagram of the reply stream: two transports whose reply
streams for the request share the first datagram but differ afterwards give
the same result, and that result is the classification of the first
datagram alone. -/
theorem acked_request_first_datagram_only (ω ω₂ : Oracle)
    (msg m : NetlinkMessage) (rest rest₂ : List NetlinkMessage)
    (h : ω msg = some (m :: rest)) (h₂ : ω₂ msg = some (m :: rest₂)) :
    (Handle.acked_request msg).run ω = (Handle.acked_request msg).run ω₂ := by
  rw [acked_request_run, acked_request_run, h, h₂]

/-- Witness for C10: the same first datagram with different tails (an extra
trailing error datagram on one side) gives the same result. -/
theorem acked_request_first_datagram_only_witness :
    (fun _ : NetlinkMessage => (some [NetlinkMessage.new
        NetlinkHeader.default NetlinkPayload.Done,
      NetlinkMessage.new NetlinkHeader.default (NetlinkPayload.Error ⟨9⟩)] :
        Option (List NetlinkMessage))) (Handle.set_pid_request 1) =
      some [NetlinkMessage.new NetlinkHeader.default NetlinkPayload.Done,
        NetlinkMessage.new NetlinkHeader.default
          (NetlinkPayload.Error ⟨9⟩)] ∧
    (fun _ : NetlinkMessage => (some [NetlinkMessage.new
        NetlinkHeader.default NetlinkPayload.Done] :
        Option (List NetlinkMessage))) (Handle.set_pid_request 1) =
      some [NetlinkMessage.new NetlinkHeader.default NetlinkPayload.Done] ∧
    (Handle.acked_request (Handle.set_pid_request 1)).run
        (fun _ => some [NetlinkMessage.new NetlinkHeader.default
          NetlinkPayload.Done,
        NetlinkMessage.new NetlinkHeader.default
          (NetlinkPayload.Error ⟨9⟩)]) =
      (Handle.acked_request (Handle.set_pid_request 1)).run
        (fun _ => some [NetlinkMessage.new NetlinkHeader.default
          NetlinkPayload.Done]) :=
  ⟨rfl, rfl, acked_request_first_datagram_only _ _ (Handle.set_pid_request 1)
    (NetlinkMessage.new NetlinkHeader.default NetlinkPayload.Done)
    [NetlinkMessage.new NetlinkHeader.default (NetlinkPayload.Error ⟨9⟩)] []
    rfl rfl⟩


/-- Claim C3: each list_rules reply datagram is mapped independently to one
stream item (a populated ListRules payload to Ok(rule), an error payload to
Err(NetlinkError), any other payload to Err(UnexpectedMessage)); one
erroneous datagram does not terminate the enumeration of later datagrams,
and a failed initial send gives a stream of exactly one terminal Err item. -/
theorem list_rules_item_classification (ω ω₂ : Oracle)
    (msgs : List NetlinkMessage)
    (hok : ω Handle.list_rules_request = some msgs)
    (hfail : ω₂ Handle.list_rules_request = none) :
    Handle.list_rules.run ω = (msgs.map fun msg =>
      match msg.payload with
      | NetlinkPayload.InnerMessage
          (AuditMessage.ListRules (some rule_msg)) => Except.ok rule_msg
      | NetlinkPayload.Error err_msg =>
          Except.error (Error.NetlinkError err_msg)
      | pl => Except.error (Error.UnexpectedMessage
          (NetlinkMessage.new msg.header pl))) ∧
    (Handle.list_rules.run ω).length = msgs.length ∧
    Handle.list_rules.run ω₂ = [Except.error Error.RequestFailed] := by
  refine ⟨?_, ?_, ?_⟩
  · rw [list_rules_run, hok]
  · rw [list_rules_run, hok]; simp
  · rw [list_rules_run, hfail]

/-- Witness for C3: a three-datagram reply (one rule, one error, one
unexpected Done datagram) maps itemwise, and a failed send gives the single
RequestFailed item. -/
theorem list_rules_item_classification_witness :
    (fun _ : NetlinkMessage => (some [NetlinkMessage.new
        NetlinkHeader.default (NetlinkPayload.InnerMessage
          (AuditMessage.ListRules (some ⟨2⟩))),
      NetlinkMessage.new NetlinkHeader.default (NetlinkPayload.Error ⟨3⟩),
      NetlinkMessage.new NetlinkHeader.default NetlinkPayload.Done] :
        Option (List NetlinkMessage))) Handle.list_rules_request =
      some [NetlinkMessage.new NetlinkHeader.default
          (NetlinkPayload.InnerMessage (AuditMessage.ListRules (some ⟨2⟩))),
        NetlinkMessage.new NetlinkHeader.default (NetlinkPayload.Error ⟨3⟩),
        NetlinkMessage.new NetlinkHeader.default NetlinkPayload.Done] ∧
    (fun _ : NetlinkMessage => (none : Option (List NetlinkMessage)))
        Handle.list_rules_request = none ∧
    Handle.list_rules.run (fun _ => some [NetlinkMessage.new
        NetlinkHeader.default (NetlinkPayload.InnerMessage
          (AuditMessage.ListRules (some ⟨2⟩))),
      NetlinkMessage.new NetlinkHeader.default (NetlinkPayload.Error ⟨3⟩),
      NetlinkMessage.new NetlinkHeader.default NetlinkPayload.Done]) =
      [Except.ok ⟨2⟩, Except.error (Error.NetlinkError ⟨3⟩),
        Except.error (Error.UnexpectedMessage (NetlinkMessage.new
          NetlinkHeader.default NetlinkPayload.Done))] ∧
    Handle.list_rules.run (fun _ => none) =
      [Except.error Error.RequestFailed] :=
  ⟨rfl, rfl,
    (list_rules_item_classification
      (fun _ => some [NetlinkMessage.new NetlinkHeader.default
          (NetlinkPayload.InnerMessage (AuditMessage.ListRules (some ⟨2⟩))),
        NetlinkMessage.new NetlinkHeader.default (NetlinkPayload.Error ⟨3⟩),
        NetlinkMessage.new NetlinkHeader.default NetlinkPayload.Done])
      (fun _ => none) _ rfl rfl).1,
    (list_rules_item_classification
      (fun _ => some [NetlinkMessage.new NetlinkHeader.default
          (NetlinkPayload.InnerMessage (AuditMessage.ListRules (some ⟨2⟩))),
        NetlinkMessage.new NetlinkHeader.default (NetlinkPayload.Error ⟨3⟩),
        NetlinkMessage.new NetlinkHeader.default NetlinkPayload.Done])
      (fun _ => none) _ rfl rfl).2.2⟩

/-- Claim C6: a reply stream of N datagrams each carrying a populated
ListRules payload yields exactly N Ok(rule) items, in datagram order, and
the stream then terminates. -/
theorem list_rules_dump_in_order (ω : Oracle)
    (items : List (NetlinkHeader × RuleMessage))
    (h : ω Handle.list_rules_request = some (items.map fun it =>
      NetlinkMessage.new it.1 (NetlinkPayload.InnerMessage
        (AuditMessage.ListRules (some it.2))))) :
    Handle.list_rules.run ω = items.map (fun it => Except.ok it.2) ∧
    (Handle.list_rules.run ω).length = items.length := by
  have main : Handle.list_rules.run ω =
      items.map fun it => Except.ok it.2 := by
    rw [list_rules_run, h]
    simp [List.map_map, Function.comp, NetlinkMessage.new]
  exact ⟨main, by rw [main]; simp⟩

/-- Witness for C6 on a two-rule dump stream. -/
theorem list_rules_dump_in_order_witness :
    (fun _ : NetlinkMessage => (some [NetlinkMessage.new
        NetlinkHeader.default (NetlinkPayload.InnerMessage
          (AuditMessage.ListRules (some ⟨1⟩))),
      NetlinkMessage.new NetlinkHeader.default (NetlinkPayload.InnerMessage
        (AuditMessage.ListRules (some ⟨2⟩)))] :
        Option (List NetlinkMessage))) Handle.list_rules_request =
      some ([(NetlinkHeader.default, (⟨1⟩ : RuleMessage)),
        (NetlinkHeader.default, ⟨2⟩)].map fun it =>
        NetlinkMessage.new it.1 (NetlinkPayload.InnerMessage
          (AuditMessage.ListRules (some it.2)))) ∧
    Handle.list_rules.run (fun _ => some [NetlinkMessage.new
        NetlinkHeader.default (NetlinkPayload.InnerMessage
          (AuditMessage.ListRules (some ⟨1⟩))),
      NetlinkMessage.new NetlinkHeader.default (NetlinkPayload.InnerMessage
        (AuditMessage.ListRules (some ⟨2⟩)))]) =
      [Except.ok ⟨1⟩, Except.ok ⟨2⟩] :=
  ⟨rfl, (list_rules_dump_in_order
    (fun _ => some [NetlinkMessage.new NetlinkHeader.default
        (NetlinkPayload.InnerMessage (AuditMessage.ListRules (some ⟨1⟩))),
      NetlinkMessage.new NetlinkHeader.default (NetlinkPayload.InnerMessage
        (AuditMessage.ListRules (some ⟨2⟩)))])
    [(NetlinkHeader.default, ⟨1⟩), (NetlinkHeader.default, ⟨2⟩)] rfl).1⟩

/-- Claim C4: get_status carries the dump flag and considers only the first
reply datagram: no datagram gives Err(RequestFailed); a first datagram with
a populated GetStatus payload gives Ok(status); any other first datagram
gives Err(UnexpectedMessage). -/
theorem get_status_first_datagram (ωe ωs ωo : Oracle)
    (st : StatusMessage) (hdr : NetlinkHeader) (m : NetlinkMessage)
    (rest₁ rest₂ : List NetlinkMessage)
    (he : ωe Handle.get_status_request = some [])
    (hs : ωs Handle.get_status_request = some
      (NetlinkMessage.new hdr (NetlinkPayload.InnerMessage
        (AuditMessage.GetStatus (some st))) :: rest₁))
    (ho : ωo Handle.get_status_request = some (m :: rest₂))
    (hm : ∀ s : StatusMessage, m.payload ≠ NetlinkPayload.InnerMessage
      (AuditMessage.GetStatus (some s))) :
    Handle.get_status_request.header.flags =
      (NLM_F_REQUEST ||| NLM_F_DUMP) ∧
    Handle.get_status.run ωe = Except.error Error.RequestFailed ∧
    Handle.get_status.run ωs = Except.ok st ∧
    Handle.get_status.run ωo = Except.error (Error.UnexpectedMessage
      (NetlinkMessage.new m.header m.payload)) := by
  refine ⟨rfl, ?_, ?_, ?_⟩
  · rw [get_status_run, he]
  · rw [get_status_run, hs]; exact rfl
  · rw [get_status_run, ho]
    cases hp : m.payload
    case Done => simp [hp]
    case Error e => simp [hp]
    case Noop => simp [hp]
    case Overrun bs => simp [hp]
    case InnerMessage a =>
      cases a
      case GetStatus o =>
        cases o
        case none => simp [hp]
        case some s => exact absurd hp (hm s)
      case SetStatus s => simp [hp]
      case AddRule r => simp [hp]
      case DelRule r => simp [hp]
      case ListRules o => simp [hp]
      case Event k d => simp [hp]

/-- Witness for C4: an empty stream, a populated-status stream, and a Done
datagram stream resolve as claimed. -/
theorem get_status_first_datagram_witness :
    (fun _ : NetlinkMessage => (some [] : Option (List NetlinkMessage)))
        Handle.get_status_request = some [] ∧
    (∀ s : StatusMessage, (NetlinkMessage.new NetlinkHeader.default
      NetlinkPayload.Done).payload ≠ NetlinkPayload.InnerMessage
        (AuditMessage.GetStatus (some s))) ∧
    Handle.get_status_request.header.flags =
      (NLM_F_REQUEST ||| NLM_F_DUMP) ∧
    Handle.get_status.run (fun _ => some []) =
      Except.error Error.RequestFailed ∧
    Handle.get_status.run (fun _ => some [NetlinkMessage.new
        NetlinkHeader.default (NetlinkPayload.InnerMessage
          (AuditMessage.GetStatus (some ⟨1, 1, 0, 42, 0, 0, 0, 0, 0⟩)))]) =
      Except.ok ⟨1, 1, 0, 42, 0, 0, 0, 0, 0⟩ ∧
    Handle.get_status.run (fun _ => some [NetlinkMessage.new
        NetlinkHeader.default NetlinkPayload.Done]) =
      Except.error (Error.UnexpectedMessage (NetlinkMessage.new
        NetlinkHeader.default NetlinkPayload.Done)) := by
  have T := get_status_first_datagram (fun _ => some [])
    (fun _ => some [NetlinkMessage.new NetlinkHeader.default
      (NetlinkPayload.InnerMessage
        (AuditMessage.GetStatus (some ⟨1, 1, 0, 42, 0, 0, 0, 0, 0⟩)))])
    (fun _ => some [NetlinkMessage.new NetlinkHeader.default
      NetlinkPayload.Done])
    ⟨1, 1, 0, 42, 0, 0, 0, 0, 0⟩ NetlinkHeader.default
    (NetlinkMessage.new NetlinkHeader.default NetlinkPayload.Done) [] []
    rfl rfl rfl (fun _ hc => NetlinkPayload.noConfusion hc)
  exact ⟨rfl, fun _ hc => NetlinkPayload.noConfusion hc, T.1, T.2.1,
    T.2.2.1, T.2.2.2⟩

/-- Claim C9: in get_status, a first reply datagram whose payload is a
netlink error is classified as Err(UnexpectedMessage) carrying the raw
message, never as Err(NetlinkError) — unlike the acknowledged operations,
which map the same reply to NetlinkError. -/
theorem get_status_error_payload_unexpected (ω : Oracle) (e : ErrorMessage)
    (hdr : NetlinkHeader) (rest : List NetlinkMessage)
    (h : ω Handle.get_status_request = some
      (NetlinkMessage.new hdr (NetlinkPayload.Error e) :: rest)) :
    Handle.get_status.run ω = Except.error (Error.UnexpectedMessage
      (NetlinkMessage.new hdr (NetlinkPayload.Error e))) ∧
    (∀ e₂ : ErrorMessage, Handle.get_status.run ω ≠
      Except.error (Error.NetlinkError e₂)) ∧
    (∀ st : StatusMessage, ω (Handle.set_status_request st) = some
        (NetlinkMessage.new hdr (NetlinkPayload.Error e) :: rest) →
      (Handle.set_status st).run ω =
        Except.error (Error.NetlinkError e)) := by
  refine ⟨?_, ?_, ?_⟩
  · rw [get_status_run, h]; exact rfl
  · intro e₂
    rw [get_status_run, h]
    simp [NetlinkMessage.new]
  · intro st hst
    rw [Handle.set_status, acked_request_run, hst]; exact rfl

/-- Witness for C9: a single error-payload reply to get_status resolves to
UnexpectedMessage, while the same reply to set_status resolves to
NetlinkError. -/
theorem get_status_error_payload_unexpected_witness :
    (fun _ : NetlinkMessage => (some [NetlinkMessage.new
        NetlinkHeader.default (NetlinkPayload.Error ⟨7⟩)] :
        Option (List NetlinkMessage))) Handle.get_status_request =
      some [NetlinkMessage.new NetlinkHeader.default
        (NetlinkPayload.Error ⟨7⟩)] ∧
    Handle.get_status.run (fun _ => some [NetlinkMessage.new
        NetlinkHeader.default (NetlinkPayload.Error ⟨7⟩)]) =
      Except.error (Error.UnexpectedMessage (NetlinkMessage.new
        NetlinkHeader.default (NetlinkPayload.Error ⟨7⟩))) ∧
    (Handle.set_status StatusMessage.new).run (fun _ => some
        [NetlinkMessage.new NetlinkHeader.default
          (NetlinkPayload.Error ⟨7⟩)]) =
      Except.error (Error.NetlinkError ⟨7⟩) := by
  have T := get_status_error_payload_unexpected
    (fun _ => some [NetlinkMessage.new NetlinkHeader.default
      (NetlinkPayload.Error ⟨7⟩)]) ⟨7⟩ NetlinkHeader.default [] rfl
  exact ⟨rfl, T.1, T.2.2 StatusMessage.new rfl⟩

end Audit
